import Mathlib

/-
Verification of the metadata-extraction stage of the near-bindgen code
generator: `AttrSigInfo::new` in
`src/near-bindgen-core/src/info_extractor/attr_sig_info.rs`.

The module consumes a method's attribute list and signature together with
two external capabilities (serializer-attribute parsing and per-parameter
argument analysis) and produces a validated `AttrSigInfo`, or fails.
The capabilities live outside the excerpt, so they are passed in here as
function parameters; the data they produce is modelled from the spec.
-/

set_option autoImplicit false

namespace NearBindgen

/-- Modelled from the spec: `SerializerType` (in `info_extractor/mod.rs`,
outside the excerpt) is the closed two-value serialization-format
enumeration used at the contract boundary. -/
inductive SerializerType
  | JSON
  | Borsh
deriving DecidableEq, Repr

/-- Modelled from the spec: `BindgenArgType` (in `arg_info.rs`, outside the
excerpt) classifies an analyzed argument as a regular input-channel
argument or as a special injected one. -/
inductive BindgenArgType
  | Regular
  | Special
deriving DecidableEq, Repr

/-- Modelled from the spec: `ArgInfo` (in `arg_info.rs`, outside the
excerpt) exposes at least a classification tag and a serializer-format
tag for one typed parameter. -/
structure ArgInfo where
  bindgen_ty : BindgenArgType
  serializer_ty : SerializerType
deriving DecidableEq, Repr

/-- Modelled from the spec: `SerializerAttr` (in `serializer_attr.rs`,
outside the excerpt) is the parsed payload of a `result_serializer`
attribute: a serializer-format value. -/
structure SerializerAttr where
  serializer_type : SerializerType
deriving DecidableEq, Repr

/-- A source location: a location in the processed source (`.span()`), or
the macro call site (`Span::call_site()`). -/
inductive Span
  | src (n : Nat)
  | callSite
deriving DecidableEq, Repr

/-- An analysis error (`syn::Error`): a message tied to a source location. -/
structure SynError where
  span : Span
  message : String
deriving DecidableEq, Repr

/-- A raw attribute node: its path rendered as a string (the source
dispatches on `attr.path.to_token_stream().to_string()`) and its payload
token stream, kept abstract as a string. -/
structure Attribute where
  path : String
  tokens : String
deriving DecidableEq, Repr

/-- The self-parameter shape (`syn::Receiver`): whether it is taken by
reference and whether it is mutable, covering `self`, `mut self`,
`&self` and `&mut self`. -/
structure Receiver where
  reference : Bool
  mutability : Bool
deriving DecidableEq, Repr

/-- A typed (non-receiver) formal parameter (`syn::PatType`): its pattern
and type, kept abstract as token text, analyzed only by the external
argument-analysis capability. -/
structure PatType where
  pat : String
  ty : String
deriving DecidableEq, Repr

/-- A formal parameter (`syn::FnArg`): the receiver, or a typed parameter. -/
inductive FnArg
  | receiver (r : Receiver)
  | typed (p : PatType)
deriving DecidableEq, Repr

/-- A declared return type (`syn::ReturnType`): no return value, or a type. -/
inductive ReturnType
  | default
  | ty (t : String)
deriving DecidableEq, Repr

/-- A method signature (`syn::Signature`), with the markers the analyzer
inspects: the async marker, the foreign/binary calling-interface marker,
the generic parameters, the variadic marker, the parameter list, the
output type, and a source span. -/
structure Signature where
  ident : String
  asyncness : Option Unit
  abi : Option String
  generics : List String
  variadic : Option Unit
  inputs : List FnArg
  output : ReturnType
  span : Nat
deriving DecidableEq, Repr

/-- Information extracted from method attributes and signature
(`AttrSigInfo` in `attr_sig_info.rs`). -/
structure AttrSigInfo where
  ident : String
  non_bindgen_attrs : List Attribute
  args : List ArgInfo
  is_init : Bool
  input_serializer : SerializerType
  result_serializer : SerializerType
  receiver : Option Receiver
  returns : ReturnType
  original_sig : Signature
deriving DecidableEq, Repr

/-- Only get args that correspond to the contract input
(`AttrSigInfo::input_args`): the arguments whose classification tag is
`Regular`. -/
def AttrSigInfo.input_args (info : AttrSigInfo) : List ArgInfo :=
  info.args.filter fun arg =>
    match arg.bindgen_ty with
    | BindgenArgType.Regular => true
    | _ => false

/-- The attribute-classification loop of `AttrSigInfo::new`: each attribute
is dispatched on its path string; `init` sets the flag, the payload of
`result_serializer` is handed to the parsing capability `parse2`
(failure propagating), and anything else is pushed onto
`non_bindgen_attrs`. -/
def attrLoop (parse2 : String → Except SynError SerializerAttr) :
    List Attribute → List Attribute → Bool → SerializerType →
    Except SynError (List Attribute × Bool × SerializerType)
  | [], non_bindgen_attrs, is_init, result_serializer =>
      Except.ok (non_bindgen_attrs, is_init, result_serializer)
  | attr :: rest, non_bindgen_attrs, is_init, result_serializer =>
      if attr.path == "init" then
        attrLoop parse2 rest non_bindgen_attrs true result_serializer
      else if attr.path == "result_serializer" then
        match parse2 attr.tokens with
        | Except.error e => Except.error e
        | Except.ok serializer =>
            attrLoop parse2 rest non_bindgen_attrs is_init
              serializer.serializer_type
      else
        attrLoop parse2 rest (non_bindgen_attrs ++ [attr]) is_init
          result_serializer

/-- The parameter loop of `AttrSigInfo::new`: each formal parameter is
classified as the receiver (captured as-is, overwriting any earlier one)
or as a typed parameter, which is handed to the argument-analysis
capability `arg_new` (failure propagating). -/
def argLoop (arg_new : PatType → Except SynError ArgInfo) :
    List FnArg → Option Receiver → List ArgInfo →
    Except SynError (Option Receiver × List ArgInfo)
  | [], receiver, args => Except.ok (receiver, args)
  | FnArg.receiver r :: rest, _, args => argLoop arg_new rest (some r) args
  | FnArg.typed p :: rest, receiver, args =>
      match arg_new p with
      | Except.error e => Except.error e
      | Except.ok a => argLoop arg_new rest receiver (args ++ [a])

/-- Process the method and extract information important for near-bindgen
(`AttrSigInfo::new`). The two external capabilities — `parse2` for the
`result_serializer` payload (`syn::parse2::<SerializerAttr>`) and
`arg_new` for typed parameters (`ArgInfo::new`) — are passed in as
functions. -/
def AttrSigInfo.new (parse2 : String → Except SynError SerializerAttr)
    (arg_new : PatType → Except SynError ArgInfo)
    (original_attrs : List Attribute) (original_sig : Signature) :
    Except SynError AttrSigInfo :=
  if original_sig.asyncness.isSome then
    Except.error ⟨Span.src original_sig.span,
      "Contract API is not allowed to be async."⟩
  else if original_sig.abi.isSome then
    Except.error ⟨Span.src original_sig.span,
      "Contract API is not allowed to have binary interface."⟩
  else if !original_sig.generics.isEmpty then
    Except.error ⟨Span.src original_sig.span,
      "Contract API is not allowed to have generics."⟩
  else if original_sig.variadic.isSome then
    Except.error ⟨Span.src original_sig.span,
      "Contract API is not allowed to have variadic arguments."⟩
  else
    match attrLoop parse2 original_attrs [] false SerializerType.JSON with
    | Except.error e => Except.error e
    | Except.ok (non_bindgen_attrs, is_init, result_serializer) =>
        match argLoop arg_new original_sig.inputs none [] with
        | Except.error e => Except.error e
        | Except.ok (receiver, args) =>
            let result : AttrSigInfo :=
              { ident := original_sig.ident
                non_bindgen_attrs := non_bindgen_attrs
                args := args
                is_init := is_init
                input_serializer := SerializerType.JSON
                result_serializer := result_serializer
                receiver := receiver
                returns := original_sig.output
                original_sig := original_sig }
            if result.input_args.all
                (fun arg => arg.serializer_ty == SerializerType.JSON) then
              Except.ok { result with input_serializer := SerializerType.JSON }
            else if result.input_args.all
                (fun arg => arg.serializer_ty == SerializerType.Borsh) then
              Except.ok { result with input_serializer := SerializerType.Borsh }
            else
              Except.error ⟨Span.callSite,
                "Input arguments should be all of the same serialization type."⟩

/-- An attribute recognized as a bindgen directive: `init` or
`result_serializer`. -/
def isDirective (a : Attribute) : Bool :=
  a.path == "init" || a.path == "result_serializer"

/-- An `init` directive attribute. -/
def isInitAttr (a : Attribute) : Bool :=
  a.path == "init"

/-- A `result_serializer` directive attribute. -/
def isResultSerializerAttr (a : Attribute) : Bool :=
  a.path == "result_serializer"

/-- The typed (non-receiver) parameters of a parameter list, in declared
order. -/
def typedParams : List FnArg → List PatType
  | [] => []
  | FnArg.receiver _ :: rest => typedParams rest
  | FnArg.typed p :: rest => p :: typedParams rest

/-- The receiver value left by folding the parameter list: the last
receiver occurring in it, if any. -/
def lastReceiver : List FnArg → Option Receiver → Option Receiver
  | [], acc => acc
  | FnArg.receiver r :: rest, _ => lastReceiver rest (some r)
  | FnArg.typed _ :: rest, acc => lastReceiver rest acc

/-- Map a fallible function over a list, stopping at the first error. -/
def mapExcept {α β : Type} (f : α → Except SynError β) :
    List α → Except SynError (List β)
  | [] => Except.ok []
  | x :: xs =>
      match f x with
      | Except.error e => Except.error e
      | Except.ok y =>
          match mapExcept f xs with
          | Except.error e => Except.error e
          | Except.ok ys => Except.ok (y :: ys)

/-- The result-serializer format after folding the directive attributes:
the last successfully parsed `result_serializer` payload wins. -/
def lastSerializer (parse2 : String → Except SynError SerializerAttr)
    (rs : SerializerType) : List Attribute → SerializerType
  | [] => rs
  | a :: rest =>
      if isResultSerializerAttr a then
        match parse2 a.tokens with
        | Except.ok s => lastSerializer parse2 s.serializer_type rest
        | Except.error _ => lastSerializer parse2 rs rest
      else lastSerializer parse2 rs rest

/-- The structural gate of `AttrSigInfo::new`: the declaration is
asynchronous, carries a foreign/binary calling-interface annotation, is
generic, or is variadic. -/
def structuralViolation (sig : Signature) : Bool :=
  sig.asyncness.isSome || sig.abi.isSome ||
    !sig.generics.isEmpty || sig.variadic.isSome

/-- The regular (input-channel) subset of an analyzed-argument list. -/
def regularArgs (args : List ArgInfo) : List ArgInfo :=
  args.filter fun arg =>
    match arg.bindgen_ty with
    | BindgenArgType.Regular => true
    | _ => false

/-- The fully determined value produced by a successful construction, as a
function of the inputs and the analyzed argument list. -/
def builtInfo (parse2 : String → Except SynError SerializerAttr)
    (attrs : List Attribute) (sig : Signature)
    (args : List ArgInfo) (ser : SerializerType) : AttrSigInfo :=
  { ident := sig.ident
    non_bindgen_attrs := attrs.filter fun a => !isDirective a
    args := args
    is_init := attrs.any isInitAttr
    input_serializer := ser
    result_serializer := lastSerializer parse2 SerializerType.JSON attrs
    receiver := lastReceiver sig.inputs none
    returns := sig.output
    original_sig := sig }

theorem attrLoop_eq (parse2 : String → Except SynError SerializerAttr)
    (attrs nba : List Attribute) (ii : Bool) (rs : SerializerType) :
    attrLoop parse2 attrs nba ii rs =
      match mapExcept (fun a => parse2 a.tokens)
          (attrs.filter isResultSerializerAttr) with
      | Except.error e => Except.error e
      | Except.ok _ =>
          Except.ok (nba ++ attrs.filter (fun a => !isDirective a),
            ii || attrs.any isInitAttr, lastSerializer parse2 rs attrs) := by
  induction attrs generalizing nba ii rs with
  | nil => simp [attrLoop, mapExcept, lastSerializer]
  | cons a rest ih =>
      by_cases hinit : a.path = "init"
      · have h1 : isInitAttr a = true := by simp [isInitAttr, hinit]
        have h2 : isResultSerializerAttr a = false := by
          simp [isResultSerializerAttr, hinit]
        have h3 : isDirective a = true := by simp [isDirective, hinit]
        have hstep : attrLoop parse2 (a :: rest) nba ii rs =
            attrLoop parse2 rest nba true rs := by
          simp [attrLoop, hinit]
        rw [hstep, ih]
        rw [List.filter_cons, List.filter_cons, List.any_cons]
        simp [h1, h2, h3, lastSerializer]
      · by_cases hrs : a.path = "result_serializer"
        · have h1 : isInitAttr a = false := by simp [isInitAttr, hrs]
          have h2 : isResultSerializerAttr a = true := by
            simp [isResultSerializerAttr, hrs]
          have h3 : isDirective a = true := by simp [isDirective, hrs]
          cases hp : parse2 a.tokens with
          | error e =>
              have hstep : attrLoop parse2 (a :: rest) nba ii rs =
                  Except.error e := by
                simp [attrLoop, hinit, hrs, hp]
              rw [hstep, List.filter_cons]
              simp [h2, mapExcept, hp]
          | ok s =>
              have hstep : attrLoop parse2 (a :: rest) nba ii rs =
                  attrLoop parse2 rest nba ii s.serializer_type := by
                simp [attrLoop, hinit, hrs, hp]
              rw [hstep, ih]
              rw [List.filter_cons, List.filter_cons, List.any_cons]
              have hlast : lastSerializer parse2 rs (a :: rest) =
                  lastSerializer parse2 s.serializer_type rest := by
                simp [lastSerializer, h2, hp]
              rw [hlast]
              simp only [h1, h2, h3, if_pos, if_neg, Bool.not_true,
                Bool.false_or, if_true, if_false]
              cases hm : mapExcept (fun a => parse2 a.tokens)
                  (rest.filter isResultSerializerAttr) with
              | error e => simp [mapExcept, hp, hm]
              | ok l => simp [mapExcept, hp, hm]
        · have h1 : isInitAttr a = false := by simp [isInitAttr, hinit]
          have h2 : isResultSerializerAttr a = false := by
            simp [isResultSerializerAttr, hrs]
          have h3 : isDirective a = false := by simp [isDirective, hinit, hrs]
          have hstep : attrLoop parse2 (a :: rest) nba ii rs =
              attrLoop parse2 rest (nba ++ [a]) ii rs := by
            simp [attrLoop, hinit, hrs]
          rw [hstep, ih]
          rw [List.filter_cons, List.filter_cons, List.any_cons]
          have hlast : lastSerializer parse2 rs (a :: rest) =
              lastSerializer parse2 rs rest := by
            simp [lastSerializer, h2]
          rw [hlast]
          simp [h1, h2, h3]

theorem argLoop_eq (arg_new : PatType → Except SynError ArgInfo)
    (inputs : List FnArg) (recv : Option Receiver) (args : List ArgInfo) :
    argLoop arg_new inputs recv args =
      match mapExcept arg_new (typedParams inputs) with
      | Except.error e => Except.error e
      | Except.ok l => Except.ok (lastReceiver inputs recv, args ++ l) := by
  induction inputs generalizing recv args with
  | nil => simp [argLoop, typedParams, mapExcept, lastReceiver]
  | cons fa rest ih =>
      cases fa with
      | receiver r =>
          have hstep : argLoop arg_new (FnArg.receiver r :: rest) recv args =
              argLoop arg_new rest (some r) args := by
            simp [argLoop]
          rw [hstep, ih]
          simp [typedParams, lastReceiver]
      | typed p =>
          cases hp : arg_new p with
          | error e =>
              have hstep : argLoop arg_new (FnArg.typed p :: rest) recv args =
                  Except.error e := by
                simp [argLoop, hp]
              rw [hstep]
              simp [typedParams, mapExcept, hp]
          | ok a =>
              have hstep : argLoop arg_new (FnArg.typed p :: rest) recv args =
                  argLoop arg_new rest recv (args ++ [a]) := by
                simp [argLoop, hp]
              rw [hstep, ih]
              cases hm : mapExcept arg_new (typedParams rest) with
              | error e => simp [typedParams, mapExcept, hp, hm, lastReceiver]
              | ok l => simp [typedParams, mapExcept, hp, hm, lastReceiver]

theorem mapExcept_isError_iff {α β : Type} (f : α → Except SynError β)
    (l : List α) :
    (∃ e, mapExcept f l = Except.error e) ↔
      ∃ x ∈ l, ∃ e, f x = Except.error e := by
  induction l with
  | nil => simp [mapExcept]
  | cons x xs ih =>
      cases hx : f x with
      | error e =>
          constructor
          · intro _
            exact ⟨x, by simp, e, hx⟩
          · intro _
            exact ⟨e, by simp [mapExcept, hx]⟩
      | ok y =>
          cases hm : mapExcept f xs with
          | error e1 =>
              constructor
              · intro _
                obtain ⟨z, hz, e2, hz2⟩ := ih.mp ⟨e1, hm⟩
                exact ⟨z, by simp [hz], e2, hz2⟩
              · intro _
                exact ⟨e1, by simp [mapExcept, hx, hm]⟩
          | ok ys =>
              constructor
              · rintro ⟨e, he⟩
                simp [mapExcept, hx, hm] at he
              · rintro ⟨z, hz, e, hz2⟩
                rcases List.mem_cons.mp hz with h | h
                · subst h
                  rw [hx] at hz2
                  cases hz2
                · obtain ⟨e2, he2⟩ := ih.mpr ⟨z, h, e, hz2⟩
                  rw [hm] at he2
                  cases he2

theorem mapExcept_first_error {α β : Type} (f : α → Except SynError β)
    (l1 : List α) (x : α) (l2 : List α) (e : SynError)
    (h1 : ∀ y ∈ l1, ∃ b, f y = Except.ok b) (hx : f x = Except.error e) :
    mapExcept f (l1 ++ x :: l2) = Except.error e := by
  induction l1 with
  | nil => simp [mapExcept, hx]
  | cons y ys ih =>
      obtain ⟨b, hb⟩ := h1 y (by simp)
      have hrec := ih fun z hz => h1 z (by simp [hz])
      simp [mapExcept, hb, hrec]

theorem mapExcept_ok_length {α β : Type} (f : α → Except SynError β)
    (l : List α) (ys : List β) (h : mapExcept f l = Except.ok ys) :
    ys.length = l.length := by
  induction l generalizing ys with
  | nil =>
      simp [mapExcept] at h
      simp [h]
  | cons x xs ih =>
      cases hx : f x with
      | error e => simp [mapExcept, hx] at h
      | ok y =>
          cases hm : mapExcept f xs with
          | error e => simp [mapExcept, hx, hm] at h
          | ok zs =>
              simp [mapExcept, hx, hm] at h
              subst h
              simp [ih zs hm]

theorem mapExcept_ok_get {α β : Type} (f : α → Except SynError β)
    (l : List α) (ys : List β) (h : mapExcept f l = Except.ok ys)
    (i : Nat) (hi : i < l.length) (hi' : i < ys.length) :
    f (l.get ⟨i, hi⟩) = Except.ok (ys.get ⟨i, hi'⟩) := by
  induction l generalizing ys i with
  | nil => simp at hi
  | cons x xs ih =>
      cases hx : f x with
      | error e => simp [mapExcept, hx] at h
      | ok y =>
          cases hm : mapExcept f xs with
          | error e => simp [mapExcept, hx, hm] at h
          | ok zs =>
              simp [mapExcept, hx, hm] at h
              subst h
              cases i with
              | zero => simpa using hx
              | succ j =>
                  have hj : j < xs.length :=
                    Nat.lt_of_succ_lt_succ (by simpa using hi)
                  have hj' : j < zs.length :=
                    Nat.lt_of_succ_lt_succ (by simpa using hi')
                  simpa using ih zs hm j hj hj'

theorem structuralViolation_false_iff (sig : Signature) :
    structuralViolation sig = false ↔
      sig.asyncness.isSome = false ∧ sig.abi.isSome = false ∧
      sig.generics.isEmpty = true ∧ sig.variadic.isSome = false := by
  simp only [structuralViolation, Bool.or_eq_false_iff, Bool.not_eq_false']
  tauto

theorem new_async (parse2 : String → Except SynError SerializerAttr)
    (arg_new : PatType → Except SynError ArgInfo)
    (attrs : List Attribute) (sig : Signature)
    (h : sig.asyncness.isSome = true) :
    AttrSigInfo.new parse2 arg_new attrs sig =
      Except.error ⟨Span.src sig.span,
        "Contract API is not allowed to be async."⟩ := by
  simp [AttrSigInfo.new, h]

theorem new_abi (parse2 : String → Except SynError SerializerAttr)
    (arg_new : PatType → Except SynError ArgInfo)
    (attrs : List Attribute) (sig : Signature)
    (h1 : sig.asyncness.isSome = false) (h : sig.abi.isSome = true) :
    AttrSigInfo.new parse2 arg_new attrs sig =
      Except.error ⟨Span.src sig.span,
        "Contract API is not allowed to have binary interface."⟩ := by
  simp [AttrSigInfo.new, h1, h]

theorem new_generics (parse2 : String → Except SynError SerializerAttr)
    (arg_new : PatType → Except SynError ArgInfo)
    (attrs : List Attribute) (sig : Signature)
    (h1 : sig.asyncness.isSome = false) (h2 : sig.abi.isSome = false)
    (h : sig.generics.isEmpty = false) :
    AttrSigInfo.new parse2 arg_new attrs sig =
      Except.error ⟨Span.src sig.span,
        "Contract API is not allowed to have generics."⟩ := by
  simp [AttrSigInfo.new, h1, h2, h]

theorem new_variadic (parse2 : String → Except SynError SerializerAttr)
    (arg_new : PatType → Except SynError ArgInfo)
    (attrs : List Attribute) (sig : Signature)
    (h1 : sig.asyncness.isSome = false) (h2 : sig.abi.isSome = false)
    (h3 : sig.generics.isEmpty = true) (h : sig.variadic.isSome = true) :
    AttrSigInfo.new parse2 arg_new attrs sig =
      Except.error ⟨Span.src sig.span,
        "Contract API is not allowed to have variadic arguments."⟩ := by
  simp [AttrSigInfo.new, h1, h2, h3, h]

theorem new_gate_passed (parse2 : String → Except SynError SerializerAttr)
    (arg_new : PatType → Except SynError ArgInfo)
    (attrs : List Attribute) (sig : Signature)
    (h : structuralViolation sig = false) :
    AttrSigInfo.new parse2 arg_new attrs sig =
      match mapExcept (fun a => parse2 a.tokens)
          (attrs.filter isResultSerializerAttr) with
      | Except.error e => Except.error e
      | Except.ok _ =>
          match mapExcept arg_new (typedParams sig.inputs) with
          | Except.error e => Except.error e
          | Except.ok args =>
              if (regularArgs args).all
                  (fun arg => arg.serializer_ty == SerializerType.JSON) then
                Except.ok (builtInfo parse2 attrs sig args SerializerType.JSON)
              else if (regularArgs args).all
                  (fun arg => arg.serializer_ty == SerializerType.Borsh) then
                Except.ok (builtInfo parse2 attrs sig args SerializerType.Borsh)
              else
                Except.error ⟨Span.callSite,
                  "Input arguments should be all of the same serialization type."⟩ := by
  obtain ⟨h1, h2, h3, h4⟩ := (structuralViolation_false_iff sig).mp h
  rw [AttrSigInfo.new]
  simp only [h1, h2, h3, h4, Bool.not_true, if_false, Bool.false_eq_true]
  rw [attrLoop_eq]
  simp only [argLoop_eq]
  cases hA : mapExcept (fun a => parse2 a.tokens)
      (attrs.filter isResultSerializerAttr) with
  | error e => simp
  | ok l =>
      cases hB : mapExcept arg_new (typedParams sig.inputs) with
      | error e => simp
      | ok args =>
          simp only [List.nil_append, Bool.false_or]
          rfl

theorem lastSerializer_filter (parse2 : String → Except SynError SerializerAttr)
    (rs : SerializerType) (attrs : List Attribute) :
    lastSerializer parse2 rs attrs =
      (attrs.filter isResultSerializerAttr).foldl
        (fun cur a =>
          match parse2 a.tokens with
          | Except.ok s => s.serializer_type
          | Except.error _ => cur) rs := by
  induction attrs generalizing rs with
  | nil => simp [lastSerializer]
  | cons a rest ih =>
      by_cases h : isResultSerializerAttr a = true
      · cases hp : parse2 a.tokens with
        | ok s => simp [lastSerializer, h, hp, List.filter_cons, ih]
        | error e => simp [lastSerializer, h, hp, List.filter_cons, ih]
      · have h' : isResultSerializerAttr a = false := by simpa using h
        simp [lastSerializer, h', List.filter_cons, ih]

theorem lastSerializer_last_ok
    (parse2 : String → Except SynError SerializerAttr) (rs : SerializerType)
    (attrs pre : List Attribute) (a : Attribute) (s : SerializerAttr)
    (hf : attrs.filter isResultSerializerAttr = pre ++ [a])
    (hp : parse2 a.tokens = Except.ok s) :
    lastSerializer parse2 rs attrs = s.serializer_type := by
  rw [lastSerializer_filter, hf, List.foldl_append]
  simp [hp]

theorem lastSerializer_none
    (parse2 : String → Except SynError SerializerAttr) (rs : SerializerType)
    (attrs : List Attribute)
    (h : ∀ a ∈ attrs, isResultSerializerAttr a = false) :
    lastSerializer parse2 rs attrs = rs := by
  rw [lastSerializer_filter]
  have hnil : attrs.filter isResultSerializerAttr = [] := by
    simp only [List.filter_eq_nil_iff]
    intro a ha
    simp [h a ha]
  rw [hnil]
  rfl

theorem lastReceiver_no_receiver (inputs : List FnArg) (acc : Option Receiver)
    (h : ∀ r : Receiver, FnArg.receiver r ∉ inputs) :
    lastReceiver inputs acc = acc := by
  induction inputs with
  | nil => rfl
  | cons fa rest ih =>
      cases fa with
      | receiver r => exact absurd (List.mem_cons_self _ _) (h r)
      | typed p =>
          rw [lastReceiver]
          exact ih fun r hr => h r (List.mem_cons_of_mem _ hr)

/-- The receiver dictated by the source-language convention: the first
parameter, when it is a receiver. -/
def headReceiver : List FnArg → Option Receiver
  | FnArg.receiver r :: _ => some r
  | _ => none

theorem lastReceiver_of_convention (inputs : List FnArg)
    (h : ∀ i (hi : i < inputs.length),
        (∃ r, inputs.get ⟨i, hi⟩ = FnArg.receiver r) → i = 0) :
    lastReceiver inputs none = headReceiver inputs := by
  cases inputs with
  | nil => rfl
  | cons fa rest =>
      have hrest : ∀ r : Receiver, FnArg.receiver r ∉ rest := by
        intro r hr
        obtain ⟨⟨j, hj⟩, hget⟩ := List.mem_iff_get.mp hr
        have hb : j + 1 < (fa :: rest).length := by
          simpa using Nat.succ_lt_succ hj
        have := h (j + 1) hb ⟨r, by simpa using hget⟩
        omega
      cases fa with
      | receiver r =>
          rw [lastReceiver, lastReceiver_no_receiver rest _ hrest]
          rfl
      | typed p =>
          rw [lastReceiver, lastReceiver_no_receiver rest _ hrest]
          rfl

theorem new_attr_error (parse2 : String → Except SynError SerializerAttr)
    (arg_new : PatType → Except SynError ArgInfo)
    (attrs : List Attribute) (sig : Signature) (e : SynError)
    (h : structuralViolation sig = false)
    (hA : mapExcept (fun a => parse2 a.tokens)
        (attrs.filter isResultSerializerAttr) = Except.error e) :
    AttrSigInfo.new parse2 arg_new attrs sig = Except.error e := by
  rw [new_gate_passed parse2 arg_new attrs sig h]
  simp only [hA]

theorem new_arg_error (parse2 : String → Except SynError SerializerAttr)
    (arg_new : PatType → Except SynError ArgInfo)
    (attrs : List Attribute) (sig : Signature)
    (l : List SerializerAttr) (e : SynError)
    (h : structuralViolation sig = false)
    (hA : mapExcept (fun a => parse2 a.tokens)
        (attrs.filter isResultSerializerAttr) = Except.ok l)
    (hB : mapExcept arg_new (typedParams sig.inputs) = Except.error e) :
    AttrSigInfo.new parse2 arg_new attrs sig = Except.error e := by
  rw [new_gate_passed parse2 arg_new attrs sig h]
  simp only [hA, hB]

theorem new_all_json (parse2 : String → Except SynError SerializerAttr)
    (arg_new : PatType → Except SynError ArgInfo)
    (attrs : List Attribute) (sig : Signature)
    (l : List SerializerAttr) (args : List ArgInfo)
    (h : structuralViolation sig = false)
    (hA : mapExcept (fun a => parse2 a.tokens)
        (attrs.filter isResultSerializerAttr) = Except.ok l)
    (hB : mapExcept arg_new (typedParams sig.inputs) = Except.ok args)
    (hJ : (regularArgs args).all
        (fun arg => arg.serializer_ty == SerializerType.JSON) = true) :
    AttrSigInfo.new parse2 arg_new attrs sig =
      Except.ok (builtInfo parse2 attrs sig args SerializerType.JSON) := by
  rw [new_gate_passed parse2 arg_new attrs sig h]
  simp only [hA, hB, hJ, if_true]

theorem new_all_borsh (parse2 : String → Except SynError SerializerAttr)
    (arg_new : PatType → Except SynError ArgInfo)
    (attrs : List Attribute) (sig : Signature)
    (l : List SerializerAttr) (args : List ArgInfo)
    (h : structuralViolation sig = false)
    (hA : mapExcept (fun a => parse2 a.tokens)
        (attrs.filter isResultSerializerAttr) = Except.ok l)
    (hB : mapExcept arg_new (typedParams sig.inputs) = Except.ok args)
    (hJ : (regularArgs args).all
        (fun arg => arg.serializer_ty == SerializerType.JSON) = false)
    (hBo : (regularArgs args).all
        (fun arg => arg.serializer_ty == SerializerType.Borsh) = true) :
    AttrSigInfo.new parse2 arg_new attrs sig =
      Except.ok (builtInfo parse2 attrs sig args SerializerType.Borsh) := by
  rw [new_gate_passed parse2 arg_new attrs sig h]
  simp only [hA, hB, hJ, hBo, if_true, Bool.false_eq_true, if_false]

theorem new_mixed (parse2 : String → Except SynError SerializerAttr)
    (arg_new : PatType → Except SynError ArgInfo)
    (attrs : List Attribute) (sig : Signature)
    (l : List SerializerAttr) (args : List ArgInfo)
    (h : structuralViolation sig = false)
    (hA : mapExcept (fun a => parse2 a.tokens)
        (attrs.filter isResultSerializerAttr) = Except.ok l)
    (hB : mapExcept arg_new (typedParams sig.inputs) = Except.ok args)
    (hJ : (regularArgs args).all
        (fun arg => arg.serializer_ty == SerializerType.JSON) = false)
    (hBo : (regularArgs args).all
        (fun arg => arg.serializer_ty == SerializerType.Borsh) = false) :
    AttrSigInfo.new parse2 arg_new attrs sig =
      Except.error ⟨Span.callSite,
        "Input arguments should be all of the same serialization type."⟩ := by
  rw [new_gate_passed parse2 arg_new attrs sig h]
  simp only [hA, hB, hJ, hBo, Bool.false_eq_true, if_false]

theorem new_gate_error (parse2 : String → Except SynError SerializerAttr)
    (arg_new : PatType → Except SynError ArgInfo)
    (attrs : List Attribute) (sig : Signature)
    (h : structuralViolation sig = true) :
    ∃ e : SynError,
      AttrSigInfo.new parse2 arg_new attrs sig = Except.error e ∧
      e.span = Span.src sig.span ∧
      e.message ∈ ["Contract API is not allowed to be async.",
        "Contract API is not allowed to have binary interface.",
        "Contract API is not allowed to have generics.",
        "Contract API is not allowed to have variadic arguments."] := by
  by_cases h1 : sig.asyncness.isSome = true
  · exact ⟨_, new_async parse2 arg_new attrs sig h1, rfl, by simp⟩
  · have h1' : sig.asyncness.isSome = false := by simpa using h1
    by_cases h2 : sig.abi.isSome = true
    · exact ⟨_, new_abi parse2 arg_new attrs sig h1' h2, rfl, by simp⟩
    · have h2' : sig.abi.isSome = false := by simpa using h2
      by_cases h3 : sig.generics.isEmpty = false
      · exact ⟨_, new_generics parse2 arg_new attrs sig h1' h2' h3, rfl,
          by simp⟩
      · have h3' : sig.generics.isEmpty = true := by
          cases hg : sig.generics.isEmpty
          · exact absurd hg h3
          · rfl
        have h4 : sig.variadic.isSome = true := by
          simp only [structuralViolation, h1', h2', h3', Bool.not_true,
            Bool.false_or, Bool.or_self] at h
          simpa using h
        exact ⟨_, new_variadic parse2 arg_new attrs sig h1' h2' h3' h4, rfl,
          by simp⟩

/-- A concrete well-formed signature, used as a witness input:
`fn set(&mut self, key: String, value: String)`. -/
def sampleSig : Signature :=
  { ident := "set"
    asyncness := none
    abi := none
    generics := []
    variadic := none
    inputs := [FnArg.receiver { reference := true, mutability := true },
               FnArg.typed { pat := "key", ty := "String" },
               FnArg.typed { pat := "value", ty := "String" }]
    output := ReturnType.default
    span := 7 }

/-- The sample signature with the async marker set. -/
def asyncSig : Signature :=
  { sampleSig with asyncness := some () }

/-- A concrete argument analyzer classifying every parameter as a regular
JSON-kind argument. -/
def jsonAnalyzer : PatType → Except SynError ArgInfo :=
  fun _ => Except.ok
    { bindgen_ty := BindgenArgType.Regular
      serializer_ty := SerializerType.JSON }

/-- A concrete argument analyzer classifying every parameter as a regular
Borsh-kind argument. -/
def borshAnalyzer : PatType → Except SynError ArgInfo :=
  fun _ => Except.ok
    { bindgen_ty := BindgenArgType.Regular
      serializer_ty := SerializerType.Borsh }

/-- A concrete argument analyzer: parameters whose pattern is `b` become
regular Borsh-kind arguments, all others regular JSON-kind ones. -/
def mixedAnalyzer : PatType → Except SynError ArgInfo :=
  fun p =>
    if p.pat == "b" then
      Except.ok
        { bindgen_ty := BindgenArgType.Regular
          serializer_ty := SerializerType.Borsh }
    else
      Except.ok
        { bindgen_ty := BindgenArgType.Regular
          serializer_ty := SerializerType.JSON }

/-- A concrete argument analyzer that rejects every parameter. -/
def failAnalyzer : PatType → Except SynError ArgInfo :=
  fun p => Except.error ⟨Span.src 3, p.pat⟩

/-- A concrete serializer-attribute parser: the payload `(borsh)` parses
to Borsh, `(json)` to JSON, anything else is a parse error carrying the
payload. -/
def sampleParser : String → Except SynError SerializerAttr :=
  fun t =>
    if t == "(borsh)" then
      Except.ok { serializer_type := SerializerType.Borsh }
    else if t == "(json)" then
      Except.ok { serializer_type := SerializerType.JSON }
    else
      Except.error ⟨Span.src 1, t⟩

/-- Claim C1: construction resolves `input_serializer` over exactly the
subset of analyzed arguments classified `Regular`: if every regular
argument is JSON-kind (vacuously, when the regular subset is empty) the
field is JSON; else if every regular argument is Borsh-kind the field is
Borsh; else construction fails with the format-inconsistency error
reported at the call site rather than at any single argument. -/
theorem C1_input_serialization_resolution
    (parse2 : String → Except SynError SerializerAttr)
    (arg_new : PatType → Except SynError ArgInfo)
    (attrs : List Attribute) (sig : Signature) (args : List ArgInfo)
    (hgate : structuralViolation sig = false)
    (hattrs : (mapExcept (fun a => parse2 a.tokens)
        (attrs.filter isResultSerializerAttr)).isOk = true)
    (hargs : mapExcept arg_new (typedParams sig.inputs) = Except.ok args) :
    ((regularArgs args).all
        (fun arg => arg.serializer_ty == SerializerType.JSON) = true →
      ∃ info, AttrSigInfo.new parse2 arg_new attrs sig = Except.ok info ∧
        info.args = args ∧ info.input_serializer = SerializerType.JSON) ∧
    (regularArgs args = [] →
      ∃ info, AttrSigInfo.new parse2 arg_new attrs sig = Except.ok info ∧
        info.input_serializer = SerializerType.JSON) ∧
    ((regularArgs args).all
        (fun arg => arg.serializer_ty == SerializerType.JSON) = false →
      (regularArgs args).all
        (fun arg => arg.serializer_ty == SerializerType.Borsh) = true →
      ∃ info, AttrSigInfo.new parse2 arg_new attrs sig = Except.ok info ∧
        info.args = args ∧ info.input_serializer = SerializerType.Borsh) ∧
    ((regularArgs args).all
        (fun arg => arg.serializer_ty == SerializerType.JSON) = false →
      (regularArgs args).all
        (fun arg => arg.serializer_ty == SerializerType.Borsh) = false →
      AttrSigInfo.new parse2 arg_new attrs sig =
        Except.error ⟨Span.callSite,
          "Input arguments should be all of the same serialization type."⟩) := by
  cases hA : mapExcept (fun a => parse2 a.tokens)
      (attrs.filter isResultSerializerAttr) with
  | error e =>
      rw [hA] at hattrs
      cases hattrs
  | ok l =>
      refine ⟨?_, ?_, ?_, ?_⟩
      · intro hall
        exact ⟨_, new_all_json parse2 arg_new attrs sig l args hgate hA hargs
          hall, rfl, rfl⟩
      · intro hempty
        have hall : (regularArgs args).all
            (fun arg => arg.serializer_ty == SerializerType.JSON) = true := by
          rw [hempty]
          rfl
        exact ⟨_, new_all_json parse2 arg_new attrs sig l args hgate hA hargs
          hall, rfl⟩
      · intro hJ hBo
        exact ⟨_, new_all_borsh parse2 arg_new attrs sig l args hgate hA hargs
          hJ hBo, rfl, rfl⟩
      · intro hJ hBo
        exact new_mixed parse2 arg_new attrs sig l args hgate hA hargs hJ hBo

/-- Witness for C1: the sample declaration with two regular JSON-kind
arguments and no attributes is accepted with JSON input serialization. -/
theorem C1_witness :
    ∃ info, AttrSigInfo.new sampleParser jsonAnalyzer [] sampleSig =
        Except.ok info ∧
      info.args = [{ bindgen_ty := BindgenArgType.Regular
                     serializer_ty := SerializerType.JSON },
                   { bindgen_ty := BindgenArgType.Regular
                     serializer_ty := SerializerType.JSON }] ∧
      info.input_serializer = SerializerType.JSON :=
  (C1_input_serialization_resolution sampleParser jsonAnalyzer [] sampleSig
    [{ bindgen_ty := BindgenArgType.Regular
       serializer_ty := SerializerType.JSON },
     { bindgen_ty := BindgenArgType.Regular
       serializer_ty := SerializerType.JSON }]
    (by rfl) (by rfl) (by rfl)).1 (by rfl)

/-- Claim C2: every declaration that is asynchronous, carries a
foreign/binary calling-interface annotation, is generic, or is variadic
is rejected by construction with a structural-violation error located at
the signature, and no `AttrSigInfo` value is produced. -/
theorem C2_structural_gate
    (parse2 : String → Except SynError SerializerAttr)
    (arg_new : PatType → Except SynError ArgInfo)
    (attrs : List Attribute) (sig : Signature)
    (h : sig.asyncness.isSome = true ∨ sig.abi.isSome = true ∨
        sig.generics.isEmpty = false ∨ sig.variadic.isSome = true) :
    ∃ e : SynError,
      AttrSigInfo.new parse2 arg_new attrs sig = Except.error e ∧
      e.span = Span.src sig.span ∧
      e.message ∈ ["Contract API is not allowed to be async.",
        "Contract API is not allowed to have binary interface.",
        "Contract API is not allowed to have generics.",
        "Contract API is not allowed to have variadic arguments."] ∧
      ∀ info, AttrSigInfo.new parse2 arg_new attrs sig ≠ Except.ok info := by
  have hsv : structuralViolation sig = true := by
    simp only [structuralViolation, Bool.or_eq_true, Bool.not_eq_true']
    tauto
  obtain ⟨e, he, hspan, hmsg⟩ := new_gate_error parse2 arg_new attrs sig hsv
  refine ⟨e, he, hspan, hmsg, ?_⟩
  intro info hinfo
  rw [he] at hinfo
  cases hinfo

/-- Witness for C2: the async sample declaration is rejected. -/
theorem C2_witness :
    ∃ e : SynError,
      AttrSigInfo.new sampleParser jsonAnalyzer [] asyncSig =
        Except.error e ∧
      e.span = Span.src asyncSig.span ∧
      e.message ∈ ["Contract API is not allowed to be async.",
        "Contract API is not allowed to have binary interface.",
        "Contract API is not allowed to have generics.",
        "Contract API is not allowed to have variadic arguments."] ∧
      ∀ info, AttrSigInfo.new sampleParser jsonAnalyzer [] asyncSig ≠
        Except.ok info :=
  C2_structural_gate sampleParser jsonAnalyzer [] asyncSig (Or.inl rfl)

/-- Claim C3: construction returns an error if and only if one of the four
failure conditions holds — a structural gate violation, a malformed
`result_serializer` payload, a parameter rejected by the argument
analyzer, or mixed serializer formats across the regular input
arguments; the error result carries no `AttrSigInfo` value. -/
theorem C3_error_characterization
    (parse2 : String → Except SynError SerializerAttr)
    (arg_new : PatType → Except SynError ArgInfo)
    (attrs : List Attribute) (sig : Signature) :
    (∃ e, AttrSigInfo.new parse2 arg_new attrs sig = Except.error e) ↔
      structuralViolation sig = true ∨
      (∃ a ∈ attrs, isResultSerializerAttr a = true ∧
        ∃ e, parse2 a.tokens = Except.error e) ∨
      (∃ p ∈ typedParams sig.inputs, ∃ e, arg_new p = Except.error e) ∨
      (∃ args, mapExcept arg_new (typedParams sig.inputs) = Except.ok args ∧
        (regularArgs args).all
          (fun arg => arg.serializer_ty == SerializerType.JSON) = false ∧
        (regularArgs args).all
          (fun arg => arg.serializer_ty == SerializerType.Borsh) = false) := by
  by_cases hsv : structuralViolation sig = true
  · constructor
    · intro _
      exact Or.inl hsv
    · intro _
      obtain ⟨e, he, _, _⟩ := new_gate_error parse2 arg_new attrs sig hsv
      exact ⟨e, he⟩
  · have hsv' : structuralViolation sig = false := by simpa using hsv
    cases hA : mapExcept (fun a => parse2 a.tokens)
        (attrs.filter isResultSerializerAttr) with
    | error e =>
        constructor
        · intro _
          right; left
          obtain ⟨x, hx, e2, he2⟩ :=
            (mapExcept_isError_iff (fun a => parse2 a.tokens)
              (attrs.filter isResultSerializerAttr)).mp ⟨e, hA⟩
          obtain ⟨hxa, hxr⟩ := List.mem_filter.mp hx
          exact ⟨x, hxa, hxr, e2, he2⟩
        · intro _
          exact ⟨e, new_attr_error parse2 arg_new attrs sig e hsv' hA⟩
    | ok l =>
        have hnoattr : ¬ (∃ a ∈ attrs, isResultSerializerAttr a = true ∧
            ∃ e, parse2 a.tokens = Except.error e) := by
          rintro ⟨a, ha, har, e, hae⟩
          obtain ⟨e2, he2⟩ :=
            (mapExcept_isError_iff (fun a => parse2 a.tokens)
              (attrs.filter isResultSerializerAttr)).mpr
              ⟨a, List.mem_filter.mpr ⟨ha, har⟩, e, hae⟩
          rw [hA] at he2
          cases he2
        cases hB : mapExcept arg_new (typedParams sig.inputs) with
        | error e =>
            constructor
            · intro _
              right; right; left
              exact (mapExcept_isError_iff arg_new
                (typedParams sig.inputs)).mp ⟨e, hB⟩
            · intro _
              exact ⟨e, new_arg_error parse2 arg_new attrs sig l e hsv' hA hB⟩
        | ok args =>
            have hnoarg : ¬ (∃ p ∈ typedParams sig.inputs,
                ∃ e, arg_new p = Except.error e) := by
              intro hcon
              obtain ⟨e2, he2⟩ := (mapExcept_isError_iff arg_new
                (typedParams sig.inputs)).mpr hcon
              rw [hB] at he2
              cases he2
            by_cases hJ : (regularArgs args).all
                (fun arg => arg.serializer_ty == SerializerType.JSON) = true
            · have hok := new_all_json parse2 arg_new attrs sig l args hsv'
                hA hB hJ
              constructor
              · rintro ⟨e, he⟩
                rw [hok] at he
                cases he
              · rintro (h | h | h | h)
                · exact absurd h hsv
                · exact absurd h hnoattr
                · exact absurd h hnoarg
                · obtain ⟨args2, hargs2, hJ2, _⟩ := h
                  injection hargs2 with hh
                  subst hh
                  rw [hJ] at hJ2
                  cases hJ2
            · have hJ' : (regularArgs args).all
                  (fun arg => arg.serializer_ty == SerializerType.JSON) =
                    false := by
                simpa using hJ
              by_cases hBo : (regularArgs args).all
                  (fun arg => arg.serializer_ty == SerializerType.Borsh) = true
              · have hok := new_all_borsh parse2 arg_new attrs sig l args hsv'
                  hA hB hJ' hBo
                constructor
                · rintro ⟨e, he⟩
                  rw [hok] at he
                  cases he
                · rintro (h | h | h | h)
                  · exact absurd h hsv
                  · exact absurd h hnoattr
                  · exact absurd h hnoarg
                  · obtain ⟨args2, hargs2, _, hBo2⟩ := h
                    injection hargs2 with hh
                    subst hh
                    rw [hBo] at hBo2
                    cases hBo2
              · have hBo' : (regularArgs args).all
                    (fun arg => arg.serializer_ty == SerializerType.Borsh) =
                      false := by
                  simpa using hBo
                have herr := new_mixed parse2 arg_new attrs sig l args hsv'
                  hA hB hJ' hBo'
                constructor
                · intro _
                  right; right; right
                  exact ⟨args, rfl, hJ', hBo'⟩
                · intro _
                  exact ⟨_, herr⟩

theorem new_ok_shape (parse2 : String → Except SynError SerializerAttr)
    (arg_new : PatType → Except SynError ArgInfo)
    (attrs : List Attribute) (sig : Signature) (info : AttrSigInfo)
    (h : AttrSigInfo.new parse2 arg_new attrs sig = Except.ok info) :
    ∃ args ser, mapExcept arg_new (typedParams sig.inputs) = Except.ok args ∧
      info = builtInfo parse2 attrs sig args ser := by
  by_cases hsv : structuralViolation sig = true
  · obtain ⟨e, he, _, _⟩ := new_gate_error parse2 arg_new attrs sig hsv
    rw [he] at h
    cases h
  · have hsv' : structuralViolation sig = false := by simpa using hsv
    rw [new_gate_passed parse2 arg_new attrs sig hsv'] at h
    cases hA : mapExcept (fun a => parse2 a.tokens)
        (attrs.filter isResultSerializerAttr) with
    | error e =>
        simp only [hA] at h
        cases h
    | ok l =>
        simp only [hA] at h
        cases hB : mapExcept arg_new (typedParams sig.inputs) with
        | error e =>
            simp only [hB] at h
            cases h
        | ok args =>
            simp only [hB] at h
            by_cases hJ : (regularArgs args).all
                (fun arg => arg.serializer_ty == SerializerType.JSON) = true
            · simp only [hJ, if_true] at h
              injection h with hh
              exact ⟨args, SerializerType.JSON, rfl, hh.symm⟩
            · have hJ' : (regularArgs args).all
                  (fun arg => arg.serializer_ty == SerializerType.JSON) =
                    false := by
                simpa using hJ
              simp only [hJ', Bool.false_eq_true, if_false] at h
              by_cases hBo : (regularArgs args).all
                  (fun arg => arg.serializer_ty == SerializerType.Borsh) = true
              · simp only [hBo, if_true] at h
                injection h with hh
                exact ⟨args, SerializerType.Borsh, rfl, hh.symm⟩
              · have hBo' : (regularArgs args).all
                    (fun arg => arg.serializer_ty == SerializerType.Borsh) =
                      false := by
                  simpa using hBo
                simp only [hBo', Bool.false_eq_true, if_false] at h
                cases h

/-- Claim C4: for every successful construction, `non_bindgen_attrs` is
exactly the sublist of the original attributes whose path is neither
`init` nor `result_serializer`, preserved verbatim (duplicates included)
and in their original relative order. -/
theorem C4_passthrough_attributes
    (parse2 : String → Except SynError SerializerAttr)
    (arg_new : PatType → Except SynError ArgInfo)
    (attrs : List Attribute) (sig : Signature) (info : AttrSigInfo)
    (h : AttrSigInfo.new parse2 arg_new attrs sig = Except.ok info) :
    info.non_bindgen_attrs =
      attrs.filter fun a =>
        !(a.path == "init" || a.path == "result_serializer") := by
  obtain ⟨args, ser, _, rfl⟩ := new_ok_shape parse2 arg_new attrs sig info h
  rfl

/-- An attribute list with directives and passthrough attributes mixed,
including a duplicate, used as a witness input. -/
def c4Attrs : List Attribute :=
  [{ path := "payable", tokens := "" },
   { path := "init", tokens := "" },
   { path := "result_serializer", tokens := "(borsh)" },
   { path := "serde", tokens := "x" },
   { path := "payable", tokens := "" }]

/-- Witness for C4: on a concrete mixed attribute list the two directives
are dropped and the other attributes survive verbatim in order. -/
theorem C4_witness :
    (builtInfo sampleParser c4Attrs sampleSig
      [{ bindgen_ty := BindgenArgType.Regular
         serializer_ty := SerializerType.JSON },
       { bindgen_ty := BindgenArgType.Regular
         serializer_ty := SerializerType.JSON }]
      SerializerType.JSON).non_bindgen_attrs =
      c4Attrs.filter fun a =>
        !(a.path == "init" || a.path == "result_serializer") :=
  C4_passthrough_attributes sampleParser jsonAnalyzer c4Attrs sampleSig _
    (by rfl)

/-- Claim C5: for every successfully constructed `AttrSigInfo`, `args`
holds one analysis result per typed (non-receiver) parameter, in exactly
the declared parameter order; the receiver never contributes an entry. -/
theorem C5_args_in_declared_order
    (parse2 : String → Except SynError SerializerAttr)
    (arg_new : PatType → Except SynError ArgInfo)
    (attrs : List Attribute) (sig : Signature) (info : AttrSigInfo)
    (h : AttrSigInfo.new parse2 arg_new attrs sig = Except.ok info) :
    mapExcept arg_new (typedParams sig.inputs) = Except.ok info.args ∧
    info.args.length = (typedParams sig.inputs).length ∧
    ∀ i (hi : i < (typedParams sig.inputs).length)
        (hi2 : i < info.args.length),
      arg_new ((typedParams sig.inputs).get ⟨i, hi⟩) =
        Except.ok (info.args.get ⟨i, hi2⟩) := by
  obtain ⟨args, ser, hB, rfl⟩ := new_ok_shape parse2 arg_new attrs sig info h
  exact ⟨hB, mapExcept_ok_length arg_new _ _ hB,
    fun i hi hi2 => mapExcept_ok_get arg_new _ _ hB i hi hi2⟩

/-- Witness for C5: the sample declaration with a receiver and two typed
parameters yields exactly the two analyzed arguments, in order. -/
theorem C5_witness :
    mapExcept jsonAnalyzer (typedParams sampleSig.inputs) =
      Except.ok (builtInfo sampleParser [] sampleSig
        [{ bindgen_ty := BindgenArgType.Regular
           serializer_ty := SerializerType.JSON },
         { bindgen_ty := BindgenArgType.Regular
           serializer_ty := SerializerType.JSON }]
        SerializerType.JSON).args ∧
    (builtInfo sampleParser [] sampleSig
      [{ bindgen_ty := BindgenArgType.Regular
         serializer_ty := SerializerType.JSON },
       { bindgen_ty := BindgenArgType.Regular
         serializer_ty := SerializerType.JSON }]
      SerializerType.JSON).args.length =
      (typedParams sampleSig.inputs).length ∧
    ∀ i (hi : i < (typedParams sampleSig.inputs).length)
        (hi2 : i < (builtInfo sampleParser [] sampleSig
          [{ bindgen_ty := BindgenArgType.Regular
             serializer_ty := SerializerType.JSON },
           { bindgen_ty := BindgenArgType.Regular
             serializer_ty := SerializerType.JSON }]
          SerializerType.JSON).args.length),
      jsonAnalyzer ((typedParams sampleSig.inputs).get ⟨i, hi⟩) =
        Except.ok ((builtInfo sampleParser [] sampleSig
          [{ bindgen_ty := BindgenArgType.Regular
             serializer_ty := SerializerType.JSON },
           { bindgen_ty := BindgenArgType.Regular
             serializer_ty := SerializerType.JSON }]
          SerializerType.JSON).args.get ⟨i, hi2⟩) :=
  C5_args_in_declared_order sampleParser jsonAnalyzer [] sampleSig _ (by rfl)

/-- Claim C6: a declaration whose attribute list contains no directive
attribute yields, on success, `is_init = false` and the JSON default for
`result_serializer`. -/
theorem C6_no_directives_defaults
    (parse2 : String → Except SynError SerializerAttr)
    (arg_new : PatType → Except SynError ArgInfo)
    (attrs : List Attribute) (sig : Signature) (info : AttrSigInfo)
    (hnd : ∀ a ∈ attrs, isDirective a = false)
    (h : AttrSigInfo.new parse2 arg_new attrs sig = Except.ok info) :
    info.is_init = false ∧ info.result_serializer = SerializerType.JSON := by
  obtain ⟨args, ser, _, rfl⟩ := new_ok_shape parse2 arg_new attrs sig info h
  constructor
  · show attrs.any isInitAttr = false
    simp only [List.any_eq_false]
    intro a ha
    have hd := hnd a ha
    simp only [isDirective, Bool.or_eq_false_iff] at hd
    simp [isInitAttr, hd.1]
  · show lastSerializer parse2 SerializerType.JSON attrs = SerializerType.JSON
    apply lastSerializer_none
    intro a ha
    have hd := hnd a ha
    simp only [isDirective, Bool.or_eq_false_iff] at hd
    simp [isResultSerializerAttr, hd.2]

/-- Witness for C6: a declaration carrying only a `payable` attribute is
constructed with `is_init = false` and JSON result serialization. -/
theorem C6_witness :
    (builtInfo sampleParser [{ path := "payable", tokens := "" }] sampleSig
      [{ bindgen_ty := BindgenArgType.Regular
         serializer_ty := SerializerType.JSON },
       { bindgen_ty := BindgenArgType.Regular
         serializer_ty := SerializerType.JSON }]
      SerializerType.JSON).is_init = false ∧
    (builtInfo sampleParser [{ path := "payable", tokens := "" }] sampleSig
      [{ bindgen_ty := BindgenArgType.Regular
         serializer_ty := SerializerType.JSON },
       { bindgen_ty := BindgenArgType.Regular
         serializer_ty := SerializerType.JSON }]
      SerializerType.JSON).result_serializer = SerializerType.JSON :=
  C6_no_directives_defaults sampleParser jsonAnalyzer
    [{ path := "payable", tokens := "" }] sampleSig _ (by decide) (by rfl)

/-- A regular JSON-kind analyzed argument, used in witness statements. -/
def jsonRegArg : ArgInfo :=
  { bindgen_ty := BindgenArgType.Regular
    serializer_ty := SerializerType.JSON }

/-- A `result_serializer` attribute requesting Borsh. -/
def rsBorshAttr : Attribute :=
  { path := "result_serializer", tokens := "(borsh)" }

/-- A `result_serializer` attribute requesting JSON. -/
def rsJsonAttr : Attribute :=
  { path := "result_serializer", tokens := "(json)" }

/-- Claim C7: for a declaration carrying a (single) `result_serializer`
attribute, a payload parsing to Borsh yields `result_serializer = Borsh`
on success, overriding the JSON default; a payload the parser rejects
makes construction fail with the parser's own error. -/
theorem C7_result_serializer_directive
    (parse2 : String → Except SynError SerializerAttr)
    (arg_new : PatType → Except SynError ArgInfo)
    (attrs : List Attribute) (sig : Signature) (a : Attribute)
    (hone : attrs.filter isResultSerializerAttr = [a])
    (hgate : structuralViolation sig = false) :
    (∀ s : SerializerAttr, parse2 a.tokens = Except.ok s →
      s.serializer_type = SerializerType.Borsh →
      ∀ info, AttrSigInfo.new parse2 arg_new attrs sig = Except.ok info →
        info.result_serializer = SerializerType.Borsh) ∧
    (∀ e, parse2 a.tokens = Except.error e →
      AttrSigInfo.new parse2 arg_new attrs sig = Except.error e) := by
  constructor
  · intro s hs hsb info h
    obtain ⟨args, ser, _, rfl⟩ := new_ok_shape parse2 arg_new attrs sig info h
    show lastSerializer parse2 SerializerType.JSON attrs =
      SerializerType.Borsh
    rw [lastSerializer_last_ok parse2 SerializerType.JSON attrs [] a s
      (by simpa using hone) hs]
    exact hsb
  · intro e he
    apply new_attr_error parse2 arg_new attrs sig e hgate
    rw [hone]
    simp [mapExcept, he]

/-- Witness for C7: the sample declaration with a single
`result_serializer(borsh)` attribute is constructed with Borsh result
serialization. -/
theorem C7_witness :
    (builtInfo sampleParser [rsBorshAttr] sampleSig [jsonRegArg, jsonRegArg]
      SerializerType.JSON).result_serializer = SerializerType.Borsh :=
  (C7_result_serializer_directive sampleParser jsonAnalyzer [rsBorshAttr]
    sampleSig rsBorshAttr (by rfl) (by rfl)).1
    { serializer_type := SerializerType.Borsh } (by rfl) rfl _ (by rfl)

/-- Claim C8: each formal parameter is classified as the receiver or as a
typed parameter; under the source-language convention (at most one
receiver, first if present) the receiver is captured as-is — `none` for
free functions — every typed parameter is handed to the argument
analyzer, and the first analyzer failure propagates immediately,
aborting construction. -/
theorem C8_receiver_argument_split
    (parse2 : String → Except SynError SerializerAttr)
    (arg_new : PatType → Except SynError ArgInfo)
    (attrs : List Attribute) (sig : Signature)
    (hconv : ∀ i (hi : i < sig.inputs.length),
        (∃ r, sig.inputs.get ⟨i, hi⟩ = FnArg.receiver r) → i = 0) :
    (∀ info, AttrSigInfo.new parse2 arg_new attrs sig = Except.ok info →
      info.receiver = headReceiver sig.inputs ∧
      mapExcept arg_new (typedParams sig.inputs) = Except.ok info.args) ∧
    (structuralViolation sig = false →
      (mapExcept (fun a => parse2 a.tokens)
        (attrs.filter isResultSerializerAttr)).isOk = true →
      ∀ ps1 p ps2 e, typedParams sig.inputs = ps1 ++ p :: ps2 →
        (∀ q ∈ ps1, ∃ b, arg_new q = Except.ok b) →
        arg_new p = Except.error e →
        AttrSigInfo.new parse2 arg_new attrs sig = Except.error e) := by
  constructor
  · intro info h
    obtain ⟨args, ser, hB, rfl⟩ := new_ok_shape parse2 arg_new attrs sig info h
    exact ⟨lastReceiver_of_convention sig.inputs hconv, hB⟩
  · intro hgate hattrs ps1 p ps2 e hsplit h1 hp
    cases hA : mapExcept (fun a => parse2 a.tokens)
        (attrs.filter isResultSerializerAttr) with
    | error e2 =>
        rw [hA] at hattrs
        cases hattrs
    | ok l =>
        apply new_arg_error parse2 arg_new attrs sig l e hgate hA
        rw [hsplit]
        exact mapExcept_first_error arg_new ps1 p ps2 e h1 hp

/-- Witness for C8: the sample declaration's leading `&mut self` receiver
is captured as-is and its two typed parameters are analyzed in order. -/
theorem C8_witness :
    (builtInfo sampleParser [] sampleSig [jsonRegArg, jsonRegArg]
        SerializerType.JSON).receiver = headReceiver sampleSig.inputs ∧
    mapExcept jsonAnalyzer (typedParams sampleSig.inputs) =
      Except.ok (builtInfo sampleParser [] sampleSig [jsonRegArg, jsonRegArg]
        SerializerType.JSON).args :=
  (C8_receiver_argument_split sampleParser jsonAnalyzer [] sampleSig
    (by
      intro i hi hr
      obtain ⟨r, hr⟩ := hr
      cases i with
      | zero => rfl
      | succ j =>
          cases j with
          | zero => simp [sampleSig] at hr
          | succ k =>
              cases k with
              | zero => simp [sampleSig] at hr
              | succ m =>
                  simp [sampleSig] at hi
                  omega)).1 _ (by rfl)

/-- Claim C9: with several `result_serializer` attributes, every payload
is parsed — a malformed one, even an earlier one, fails construction —
and on success the last such attribute in list order determines the
format; duplicates as such are never rejected. -/
theorem C9_duplicate_result_serializers
    (parse2 : String → Except SynError SerializerAttr)
    (arg_new : PatType → Except SynError ArgInfo)
    (attrs : List Attribute) (sig : Signature)
    (hgate : structuralViolation sig = false) :
    ((∃ a ∈ attrs, isResultSerializerAttr a = true ∧
        ∃ e, parse2 a.tokens = Except.error e) →
      ∃ e, AttrSigInfo.new parse2 arg_new attrs sig = Except.error e) ∧
    (∀ pre a, attrs.filter isResultSerializerAttr = pre ++ [a] →
      ∀ s, parse2 a.tokens = Except.ok s →
      ∀ info, AttrSigInfo.new parse2 arg_new attrs sig = Except.ok info →
        info.result_serializer = s.serializer_type) ∧
    ((∀ a ∈ attrs, isResultSerializerAttr a = true →
        ∃ s, parse2 a.tokens = Except.ok s) →
      ∀ args, mapExcept arg_new (typedParams sig.inputs) = Except.ok args →
      (regularArgs args).all
        (fun arg => arg.serializer_ty == SerializerType.JSON) = true →
      ∃ info, AttrSigInfo.new parse2 arg_new attrs sig = Except.ok info) := by
  refine ⟨?_, ?_, ?_⟩
  · rintro ⟨a, ha, har, e, hae⟩
    obtain ⟨e2, he2⟩ :=
      (mapExcept_isError_iff (fun a => parse2 a.tokens)
        (attrs.filter isResultSerializerAttr)).mpr
        ⟨a, List.mem_filter.mpr ⟨ha, har⟩, e, hae⟩
    exact ⟨e2, new_attr_error parse2 arg_new attrs sig e2 hgate he2⟩
  · intro pre a hsplit s hs info h
    obtain ⟨args, ser, _, rfl⟩ := new_ok_shape parse2 arg_new attrs sig info h
    show lastSerializer parse2 SerializerType.JSON attrs = s.serializer_type
    exact lastSerializer_last_ok parse2 SerializerType.JSON attrs pre a s
      hsplit hs
  · intro hall args hB hJ
    cases hA : mapExcept (fun a => parse2 a.tokens)
        (attrs.filter isResultSerializerAttr) with
    | error e =>
        obtain ⟨x, hx, e2, he2⟩ :=
          (mapExcept_isError_iff (fun a => parse2 a.tokens)
            (attrs.filter isResultSerializerAttr)).mp ⟨e, hA⟩
        obtain ⟨hxa, hxr⟩ := List.mem_filter.mp hx
        obtain ⟨s, hs⟩ := hall x hxa hxr
        rw [hs] at he2
        cases he2
    | ok l =>
        exact ⟨_, new_all_json parse2 arg_new attrs sig l args hgate hA hB hJ⟩

/-- Witness for C9: with `result_serializer(json)` followed by
`result_serializer(borsh)`, the last directive wins and the result
serializer is Borsh. -/
theorem C9_witness :
    (builtInfo sampleParser [rsJsonAttr, rsBorshAttr] sampleSig
        [jsonRegArg, jsonRegArg] SerializerType.JSON).result_serializer =
      SerializerAttr.serializer_type
        { serializer_type := SerializerType.Borsh } :=
  (C9_duplicate_result_serializers sampleParser jsonAnalyzer
    [rsJsonAttr, rsBorshAttr] sampleSig (by rfl)).2.1 [rsJsonAttr] rsBorshAttr
    (by rfl) { serializer_type := SerializerType.Borsh } (by rfl) _ (by rfl)

/-- Claim C10: failure causes are checked in a fixed precedence — the
structural checks in the order async, foreign calling interface,
generics, variadic, before any attribute payload is parsed; attribute
payload errors before any parameter analysis; and the serializer-format
conflict last, only after everything else succeeded. -/
theorem C10_error_precedence
    (parse2 : String → Except SynError SerializerAttr)
    (arg_new : PatType → Except SynError ArgInfo)
    (attrs : List Attribute) (sig : Signature) :
    (sig.asyncness.isSome = true →
      AttrSigInfo.new parse2 arg_new attrs sig =
        Except.error ⟨Span.src sig.span,
          "Contract API is not allowed to be async."⟩) ∧
    (sig.asyncness.isSome = false → sig.abi.isSome = true →
      AttrSigInfo.new parse2 arg_new attrs sig =
        Except.error ⟨Span.src sig.span,
          "Contract API is not allowed to have binary interface."⟩) ∧
    (sig.asyncness.isSome = false → sig.abi.isSome = false →
      sig.generics.isEmpty = false →
      AttrSigInfo.new parse2 arg_new attrs sig =
        Except.error ⟨Span.src sig.span,
          "Contract API is not allowed to have generics."⟩) ∧
    (sig.asyncness.isSome = false → sig.abi.isSome = false →
      sig.generics.isEmpty = true → sig.variadic.isSome = true →
      AttrSigInfo.new parse2 arg_new attrs sig =
        Except.error ⟨Span.src sig.span,
          "Contract API is not allowed to have variadic arguments."⟩) ∧
    (structuralViolation sig = false →
      ∀ e, mapExcept (fun a => parse2 a.tokens)
          (attrs.filter isResultSerializerAttr) = Except.error e →
        AttrSigInfo.new parse2 arg_new attrs sig = Except.error e) ∧
    (structuralViolation sig = false →
      ∀ l e, mapExcept (fun a => parse2 a.tokens)
          (attrs.filter isResultSerializerAttr) = Except.ok l →
        mapExcept arg_new (typedParams sig.inputs) = Except.error e →
        AttrSigInfo.new parse2 arg_new attrs sig = Except.error e) ∧
    (structuralViolation sig = false →
      ∀ l args, mapExcept (fun a => parse2 a.tokens)
          (attrs.filter isResultSerializerAttr) = Except.ok l →
        mapExcept arg_new (typedParams sig.inputs) = Except.ok args →
        (regularArgs args).all
          (fun arg => arg.serializer_ty == SerializerType.JSON) = false →
        (regularArgs args).all
          (fun arg => arg.serializer_ty == SerializerType.Borsh) = false →
        AttrSigInfo.new parse2 arg_new attrs sig =
          Except.error ⟨Span.callSite,
            "Input arguments should be all of the same serialization type."⟩) :=
  ⟨fun h1 => new_async parse2 arg_new attrs sig h1,
   fun h1 h2 => new_abi parse2 arg_new attrs sig h1 h2,
   fun h1 h2 h3 => new_generics parse2 arg_new attrs sig h1 h2 h3,
   fun h1 h2 h3 h4 => new_variadic parse2 arg_new attrs sig h1 h2 h3 h4,
   fun hg e hA => new_attr_error parse2 arg_new attrs sig e hg hA,
   fun hg l e hA hB => new_arg_error parse2 arg_new attrs sig l e hg hA hB,
   fun hg l args hA hB hJ hBo =>
     new_mixed parse2 arg_new attrs sig l args hg hA hB hJ hBo⟩

/-- Witness for C10: an async declaration that is also variadic and
carries a malformed directive still reports the async error. -/
theorem C10_witness :
    AttrSigInfo.new sampleParser failAnalyzer
        [{ path := "result_serializer", tokens := "bad" }]
        { asyncSig with variadic := some () } =
      Except.error ⟨Span.src ({ asyncSig with variadic := some () } :
          Signature).span,
        "Contract API is not allowed to be async."⟩ :=
  (C10_error_precedence sampleParser failAnalyzer
    [{ path := "result_serializer", tokens := "bad" }]
    { asyncSig with variadic := some () }).1 rfl

end NearBindgen
